import Mathlib

/-
  Verification development for rl_teacher/reward_predictors.py.

  Shallow embedding notes:
  - Machine counters are natural numbers (they only ever grow by path lengths
    and reset to 0); float thresholds 2e3/2e4 from the source compare against
    integer counters, so they are embedded as the naturals 2000/20000.
  - Floating-point scores are embedded as real numbers.
  - External collaborators (comparison collector, label schedule, agent logger,
    segment sampling) appear as explicit inputs: the result of
    sample_segment_from_path is the Boolean input sampledSegment, the
    collector's stores are counters in the state, and random.sample's result
    is an explicit minibatch argument.
-/

namespace RLTeacher

/-- One full episode trajectory, keyed exactly like the Python path dict:
obs, actions, original_rewards. -/
structure RLPath (O A R : Type) where
  obs : List O
  actions : List A
  original_rewards : List R

/-- Embeds TraditionalRLRewardPredictor.predict_reward (line 22-23 of
reward_predictors.py): returns the path's original_rewards. -/
def traditionalPredictReward {O A R : Type} (path : RLPath O A R) : List R :=
  path.original_rewards

/-- Embeds TraditionalRLRewardPredictor.path_callback (lines 25-26): the body
is the Python statement pass, so it computes nothing and has no effect. -/
def traditionalPathCallback {O A R : Type} (path : RLPath O A R) : Unit :=
  ()

/-- The bookkeeping state of a ComparisonRewardPredictor set up in its
constructor (lines 38-45), together with the sizes of the external comparison
collector's two stores (segments and comparisons), which path_callback reads
and grows. -/
structure PredictorState where
  stepsSinceLastTraining : ℕ
  stepsSinceLastCheckpoint : ℕ
  elapsedTrainingIters : ℕ
  numCheckpoints : ℕ
  collectorSegments : ℕ
  collectorComparisons : ℕ
deriving DecidableEq

/-- Counters start at zero in the constructor (lines 40-45); the collector is
empty at experiment start. -/
def initPredictorState : PredictorState :=
  { stepsSinceLastTraining := 0
    stepsSinceLastCheckpoint := 0
    elapsedTrainingIters := 0
    numCheckpoints := 0
    collectorSegments := 0
    collectorComparisons := 0 }

/-- The value self._n_timesteps_per_predictor_training = 2e3 (line 42). -/
def nTimestepsPerPredictorTraining : ℕ := 2000

/-- The value self._n_timesteps_per_checkpoint = 2e4 (line 43). -/
def nTimestepsPerCheckpoint : ℕ := 20000

/-- Observable actions taken by one path_callback call, in program order. -/
inductive Event where
  | addSegment
  | inventComparison
  | trainRun
  | saveCheckpoint
deriving DecidableEq

/-- Lines 156-158: both step counters advance by the path length. -/
def advanceCounters (s : PredictorState) (pathLength : ℕ) : PredictorState :=
  { s with
    stepsSinceLastTraining := s.stepsSinceLastTraining + pathLength
    stepsSinceLastCheckpoint := s.stepsSinceLastCheckpoint + pathLength }

/-- Lines 165-167: if sampling produced a segment and the collector holds
fewer than 1000 segments, the segment is submitted to the collector. -/
def maybeAddSegment (s : PredictorState) (sampledSegment : Bool) :
    PredictorState × List Event :=
  if sampledSegment = true ∧ s.collectorSegments < 1000 then
    ({ s with collectorSegments := s.collectorSegments + 1 }, [Event.addSegment])
  else
    (s, [])

/-- Lines 170-171: if the collector's total comparison count is below the
label schedule's desired count, one comparison is invented. -/
def maybeInventComparison (s : PredictorState) (nDesiredLabels : ℕ) :
    PredictorState × List Event :=
  if s.collectorComparisons < nDesiredLabels then
    ({ s with collectorComparisons := s.collectorComparisons + 1 }, [Event.inventComparison])
  else
    (s, [])

/-- Lines 174-176: when the training counter reaches the threshold, one
training pass runs (which increments _elapsed_predictor_training_iters,
line 215) and the counter resets to 0. -/
def maybeTrainPredictor (s : PredictorState) : PredictorState × List Event :=
  if nTimestepsPerPredictorTraining ≤ s.stepsSinceLastTraining then
    ({ s with
        stepsSinceLastTraining := 0
        elapsedTrainingIters := s.elapsedTrainingIters + 1 }, [Event.trainRun])
  else
    (s, [])

/-- Lines 179-183: when the checkpoint counter reaches the threshold,
_num_checkpoints is incremented, the model is saved, and the counter resets. -/
def maybeSaveCheckpoint (s : PredictorState) : PredictorState × List Event :=
  if nTimestepsPerCheckpoint ≤ s.stepsSinceLastCheckpoint then
    ({ s with
        stepsSinceLastCheckpoint := 0
        numCheckpoints := s.numCheckpoints + 1 }, [Event.saveCheckpoint])
  else
    (s, [])

/-- Embeds ComparisonRewardPredictor.path_callback (lines 155-183) as a
sequential composition of its four gated steps, in source order. The result
of sample_segment_from_path (external module) is the input sampledSegment;
the label schedule's n_desired_labels is the input nDesiredLabels. -/
def path_callback (s : PredictorState) (pathLength : ℕ) (sampledSegment : Bool)
    (nDesiredLabels : ℕ) : PredictorState × List Event :=
  let s1 := advanceCounters s pathLength
  let a := maybeAddSegment s1 sampledSegment
  let b := maybeInventComparison a.1 nDesiredLabels
  let c := maybeTrainPredictor b.1
  let d := maybeSaveCheckpoint c.1
  (d.1, a.2 ++ b.2 ++ c.2 ++ d.2)

/-- Number of occurrences of an event in a trace. -/
def countEvent (e : Event) (evs : List Event) : ℕ :=
  (evs.filter (fun x => decide (x = e))).length

/-- One path_callback invocation's inputs. -/
structure CallbackInput where
  pathLength : ℕ
  sampledSegment : Bool
  nDesiredLabels : ℕ

/-- Folds a sequence of path_callback calls over the predictor state. -/
def runCallbacks : PredictorState → List CallbackInput → PredictorState
  | s, [] => s
  | s, c :: cs =>
      runCallbacks (path_callback s c.pathLength c.sampledSegment c.nDesiredLabels).1 cs

/-- A comparison record: two segment identifiers and an integer label. -/
structure Comparison where
  left : ℕ
  right : ℕ
  label : ℕ
deriving DecidableEq

/-- The observable effects of one train_predictor call. -/
structure TrainStep where
  minibatchSize : ℕ
  leftBatch : List ℕ
  rightBatch : List ℕ
  labelBatch : List ℕ
  optimizerStepsRun : ℕ
deriving DecidableEq

/-- Embeds ComparisonRewardPredictor.train_predictor (lines 192-216).
The labeled-decisive pool is the collector's labeled_decisive_comparisons;
sampledMinibatch stands for the result of random.sample (line 196), which in
the source always has length min(128, pool size). The sess.run of
[train_op, loss_op] at lines 207-214 is unconditional: the function has no
branch at all, so exactly one optimizer step is issued per call, including
when the pool (and hence the minibatch) is empty. -/
def train_predictor (labeledDecisiveComparisons : List Comparison)
    (sampledMinibatch : List Comparison) : TrainStep :=
  { minibatchSize := min 128 labeledDecisiveComparisons.length
    leftBatch := sampledMinibatch.map (fun comp => comp.left)
    rightBatch := sampledMinibatch.map (fun comp => comp.right)
    labelBatch := sampledMinibatch.map (fun comp => comp.label)
    optimizerStepsRun := 1 }

/-- Summary keys written by _write_training_summaries, in source order. -/
inductive LogKey where
  | predictorLoss
  | predictorCorrelations
  | numTrainingIters
  | desiredLabels
  | totalComparisons
  | labeledComparisons
deriving DecidableEq

/-- The observable effects of one _write_training_summaries call:
whether get_recent_paths_with_padding was called, the keys logged in order,
and the pair (episode-level true rewards, episode-level predicted rewards)
handed to corrcoef when the validation branch runs. -/
structure SummariesRun where
  fetchedRecentPaths : Bool
  loggedKeys : List LogKey
  correlationInput : Option (List ℝ × List ℝ)

/-- Embeds ComparisonRewardPredictor._write_training_summaries
(lines 218-240). recentPaths is the list returned by
get_recent_paths_with_padding, which the source calls unconditionally at
line 222; qOf is the per-timestep inference result for a path (the sess.run
of self.q_value) and trueOf its original_rewards. The validation branch runs
exactly when more than one recent path exists and the logger's summary_step
is divisible by 10 (line 223); it sums per-timestep predictions and true
rewards per episode (lines 231-233) and hands the two vectors to corrcoef
(external utils module). -/
def writeTrainingSummaries {P : Type} (recentPaths : List P) (summaryStep : ℕ)
    (qOf trueOf : P → List ℝ) : SummariesRun :=
  { fetchedRecentPaths := true
    loggedKeys :=
      [LogKey.predictorLoss]
      ++ (if 1 < recentPaths.length ∧ summaryStep % 10 = 0 then
            [LogKey.predictorCorrelations] else [])
      ++ [LogKey.numTrainingIters, LogKey.desiredLabels,
          LogKey.totalComparisons, LogKey.labeledComparisons]
    correlationInput :=
      if 1 < recentPaths.length ∧ summaryStep % 10 = 0 then
        some (recentPaths.map (fun p => (trueOf p).sum),
              recentPaths.map (fun p => (qOf p).sum))
      else none }

/-- Embeds tf.one_hot(i, depth) as used at lines 107-108: a vector of length
depth with a one at position i and zeros elsewhere (all zeros when the index
is out of range, as tf.one_hot produces). -/
def oneHot (depth index : ℕ) : List ℚ :=
  (List.range depth).map (fun j => if j = index then 1 else 0)

/-- Index of the first maximum of a list, processing tail elements with a
strict comparison so earlier maxima win, as tf.argmax does. -/
def argmaxAux : ℕ → ℕ → ℚ → List ℚ → ℕ
  | _, best, _, [] => best
  | i, best, bestVal, x :: xs =>
      if bestVal < x then argmaxAux (i + 1) i x xs
      else argmaxAux (i + 1) best bestVal xs

/-- Index of the first maximum of a list (0 on the empty list). -/
def argmaxIdx : List ℚ → ℕ
  | [] => 0
  | x :: xs => argmaxAux 1 0 x xs

/-- Embeds the action wiring of _build_model (lines 101-116 of
reward_predictors.py): the pair (segment_act, segment_alt_act) that lines
122-123 hand to the scorer. In the discrete branch both streams' raw index
tensors (batch of segments of action indices) are expanded by tf.one_hot to
width actionCardinality = act_shape[0]. In the continuous branch the primary
stream is bound to its placeholder unchanged, but the alternate passthrough
assignment at line 116 targets the misspelled local segement_alt_act, so the
name segment_alt_act used at line 123 is unbound and the build raises
NameError before a pair ever reaches the scorer: that branch is therefore
embedded as none. actVec and altActVec are the two continuous placeholders
(batch, time, act_shape). -/
def buildModelActs (discreteActionSpace : Bool) (actionCardinality : ℕ)
    (actIdx altActIdx : List (List ℕ)) (actVec altActVec : List (List (List ℚ))) :
    Option (List (List (List ℚ)) × List (List (List ℚ))) :=
  if discreteActionSpace then
    some (actIdx.map (List.map (oneHot actionCardinality)),
          altActIdx.map (List.map (oneHot actionCardinality)))
  else
    none

/-- Embeds tf.reshape(xs, (batchsize, segmentLength)) for a flat vector:
row i holds entries i * segmentLength + j for j < segmentLength. -/
def reshape2 (batchsize segmentLength : ℕ) (xs : List ℝ) : List (List ℝ) :=
  (List.range batchsize).map (fun i =>
    (List.range segmentLength).map (fun j => xs.getD (i * segmentLength + j) 0))

/-- Embeds ComparisonRewardPredictor._predict_rewards (lines 66-84):
batchsize and segment length are read off the observation tensor's first two
dimensions, both streams are flattened so the network scores each
(observation, action) pair independently, and the per-pair scores are
reshaped back to (batchsize, segment_length). -/
def predict_rewards {O A : Type} (obsSegments : List (List O))
    (actSegments : List (List A)) (network : O → A → ℝ) : List (List ℝ) :=
  let batchsize := obsSegments.length
  let segmentLength := (obsSegments.headD []).length
  let obs := obsSegments.flatten
  let acts := actSegments.flatten
  let rewards := (obs.zip acts).map (fun p => network p.1 p.2)
  reshape2 batchsize segmentLength rewards

/-- Embeds tf.nn.sparse_softmax_cross_entropy_with_logits on a 2-wide logit
vector [leftLogit, rightLogit] and an integer label (line 136): the negative
log-softmax of the labeled logit. -/
noncomputable def sparseSoftmaxCE (leftLogit rightLogit : ℝ) (label : ℕ) : ℝ :=
  Real.log (Real.exp leftLogit + Real.exp rightLogit)
    - (if label = 0 then leftLogit else rightLogit)

/-- Per-example cross-entropies of a batch: the two stacked score columns
(line 129) zipped with the label column (lines 131, 136). -/
noncomputable def ceZip : List ℝ → List ℝ → List ℕ → List ℝ
  | l :: ls, r :: rs, lab :: labs => sparseSoftmaxCE l r lab :: ceZip ls rs labs
  | _, _, _ => []

/-- Embeds tf.reduce_mean over a vector (line 138). -/
noncomputable def reduceMean (xs : List ℝ) : ℝ :=
  xs.sum / xs.length

/-- Embeds tf.reduce_sum(q, axis=1) applied to a stream's per-timestep
predictions (lines 127-128): one scalar score per segment. -/
def segmentRewardPred {O A : Type} (obs : List (List O)) (acts : List (List A))
    (network : O → A → ℝ) : List ℝ :=
  (predict_rewards obs acts network).map List.sum

/-- Embeds the loss of _build_model (lines 122-138): per-timestep predictions
for both streams, summed over time, stacked into 2-wide logits, scored by
sparse softmax cross-entropy against the labels, and averaged. -/
noncomputable def modelLoss {O A : Type} (obsL : List (List O)) (actsL : List (List A))
    (obsR : List (List O)) (actsR : List (List A)) (labels : List ℕ)
    (network : O → A → ℝ) : ℝ :=
  reduceMean (ceZip (segmentRewardPred obsL actsL network)
    (segmentRewardPred obsR actsR network) labels)

/-- Decimal digits of k, most significant first, left-padded with zeros to
width 8: the digit string that the Python format string produces for the
checkpoint index at line 186. -/
def pad8 (k : ℕ) : List ℕ :=
  List.replicate (8 - (Nat.digits 10 k).length) 0 ++ (Nat.digits 10 k).reverse

/-- The zero-padded checkpoint index rendered as a string. -/
def checkpointIndexStr (k : ℕ) : String :=
  String.mk ((pad8 k).map Nat.digitChar)

/-- The path components of _checkpoint_filename (lines 185-186):
checkpoints/reward_model/<experiment name>/<8-digit zero-padded index>.
Components are kept as a list, joined by the separator; os.path.dirname on
the joined string drops the final component when no component contains a
separator. -/
def checkpointComponents (name : String) (k : ℕ) : List String :=
  ["checkpoints", "reward_model", name, checkpointIndexStr k]

/-- Embeds ComparisonRewardPredictor._checkpoint_filename as the joined
path string. -/
def checkpoint_filename (name : String) (k : ℕ) : String :=
  String.intercalate "/" (checkpointComponents name k)

/-- Embeds os.path.dirname at the component level: drop the last component. -/
def dirnameComponents (cs : List String) : List String :=
  cs.dropLast

/-- Modelled from the spec: tf.train.latest_checkpoint (an external library
call, line 189) — "loading restores the latest checkpoint found under the
experiment's directory". Given the directory and the set of checkpoint
indices saved in it, it returns the path of the checkpoint with the largest
index, or none when the directory holds no checkpoint. -/
def latest_checkpoint (dir : List String) (savedIndices : List ℕ) :
    Option (List String) :=
  savedIndices.max?.map (fun k => dir ++ [checkpointIndexStr k])

/-- Embeds ComparisonRewardPredictor.load_model_from_checkpoint
(lines 188-190): restore from latest_checkpoint of the dirname of the
current checkpoint filename (whose index component the dirname discards). -/
def load_model_from_checkpoint (name : String) (currentNumCheckpoints : ℕ)
    (savedIndices : List ℕ) : Option (List String) :=
  latest_checkpoint (dirnameComponents (checkpointComponents name currentNumCheckpoints))
    savedIndices

/-
  Helper lemmas about the path_callback stages.
-/

theorem maybeAddSegment_fst_stepsSinceLastTraining (s : PredictorState) (b : Bool) :
    (maybeAddSegment s b).1.stepsSinceLastTraining = s.stepsSinceLastTraining := by
  unfold maybeAddSegment
  split <;> rfl

theorem maybeAddSegment_fst_stepsSinceLastCheckpoint (s : PredictorState) (b : Bool) :
    (maybeAddSegment s b).1.stepsSinceLastCheckpoint = s.stepsSinceLastCheckpoint := by
  unfold maybeAddSegment
  split <;> rfl

theorem maybeAddSegment_fst_collectorComparisons (s : PredictorState) (b : Bool) :
    (maybeAddSegment s b).1.collectorComparisons = s.collectorComparisons := by
  unfold maybeAddSegment
  split <;> rfl

theorem maybeAddSegment_fst_numCheckpoints (s : PredictorState) (b : Bool) :
    (maybeAddSegment s b).1.numCheckpoints = s.numCheckpoints := by
  unfold maybeAddSegment
  split <;> rfl

theorem maybeInventComparison_fst_stepsSinceLastTraining (s : PredictorState) (n : ℕ) :
    (maybeInventComparison s n).1.stepsSinceLastTraining = s.stepsSinceLastTraining := by
  unfold maybeInventComparison
  split <;> rfl

theorem maybeInventComparison_fst_stepsSinceLastCheckpoint (s : PredictorState) (n : ℕ) :
    (maybeInventComparison s n).1.stepsSinceLastCheckpoint = s.stepsSinceLastCheckpoint := by
  unfold maybeInventComparison
  split <;> rfl

theorem maybeInventComparison_fst_numCheckpoints (s : PredictorState) (n : ℕ) :
    (maybeInventComparison s n).1.numCheckpoints = s.numCheckpoints := by
  unfold maybeInventComparison
  split <;> rfl

theorem maybeTrainPredictor_fst_stepsSinceLastCheckpoint (s : PredictorState) :
    (maybeTrainPredictor s).1.stepsSinceLastCheckpoint = s.stepsSinceLastCheckpoint := by
  unfold maybeTrainPredictor
  split <;> rfl

theorem maybeTrainPredictor_fst_numCheckpoints (s : PredictorState) :
    (maybeTrainPredictor s).1.numCheckpoints = s.numCheckpoints := by
  unfold maybeTrainPredictor
  split <;> rfl

theorem maybeTrainPredictor_fst_stepsSinceLastTraining (s : PredictorState) :
    (maybeTrainPredictor s).1.stepsSinceLastTraining
      = if 2000 ≤ s.stepsSinceLastTraining then 0 else s.stepsSinceLastTraining := by
  unfold maybeTrainPredictor nTimestepsPerPredictorTraining
  split <;> simp_all

theorem maybeTrainPredictor_snd (s : PredictorState) :
    (maybeTrainPredictor s).2
      = if 2000 ≤ s.stepsSinceLastTraining then [Event.trainRun] else [] := by
  unfold maybeTrainPredictor nTimestepsPerPredictorTraining
  split <;> simp_all

theorem maybeSaveCheckpoint_fst_stepsSinceLastTraining (s : PredictorState) :
    (maybeSaveCheckpoint s).1.stepsSinceLastTraining = s.stepsSinceLastTraining := by
  unfold maybeSaveCheckpoint
  split <;> rfl

theorem maybeSaveCheckpoint_fst_stepsSinceLastCheckpoint (s : PredictorState) :
    (maybeSaveCheckpoint s).1.stepsSinceLastCheckpoint
      = if 20000 ≤ s.stepsSinceLastCheckpoint then 0 else s.stepsSinceLastCheckpoint := by
  unfold maybeSaveCheckpoint nTimestepsPerCheckpoint
  split <;> simp_all

theorem maybeSaveCheckpoint_fst_numCheckpoints (s : PredictorState) :
    (maybeSaveCheckpoint s).1.numCheckpoints
      = if 20000 ≤ s.stepsSinceLastCheckpoint then s.numCheckpoints + 1
        else s.numCheckpoints := by
  unfold maybeSaveCheckpoint nTimestepsPerCheckpoint
  split <;> simp_all

theorem maybeSaveCheckpoint_snd (s : PredictorState) :
    (maybeSaveCheckpoint s).2
      = if 20000 ≤ s.stepsSinceLastCheckpoint then [Event.saveCheckpoint] else [] := by
  unfold maybeSaveCheckpoint nTimestepsPerCheckpoint
  split <;> simp_all

theorem maybeAddSegment_snd_count_trainRun (s : PredictorState) (b : Bool) :
    countEvent Event.trainRun (maybeAddSegment s b).2 = 0 := by
  unfold maybeAddSegment countEvent
  split <;> simp

theorem maybeInventComparison_snd_count_trainRun (s : PredictorState) (n : ℕ) :
    countEvent Event.trainRun (maybeInventComparison s n).2 = 0 := by
  unfold maybeInventComparison countEvent
  split <;> simp

theorem maybeAddSegment_snd_count_saveCheckpoint (s : PredictorState) (b : Bool) :
    countEvent Event.saveCheckpoint (maybeAddSegment s b).2 = 0 := by
  unfold maybeAddSegment countEvent
  split <;> simp

theorem maybeInventComparison_snd_count_saveCheckpoint (s : PredictorState) (n : ℕ) :
    countEvent Event.saveCheckpoint (maybeInventComparison s n).2 = 0 := by
  unfold maybeInventComparison countEvent
  split <;> simp

theorem countEvent_append (e : Event) (xs ys : List Event) :
    countEvent e (xs ++ ys) = countEvent e xs + countEvent e ys := by
  unfold countEvent
  simp [List.filter_append]

theorem maybeTrainPredictor_snd_count_saveCheckpoint (s : PredictorState) :
    countEvent Event.saveCheckpoint (maybeTrainPredictor s).2 = 0 := by
  unfold maybeTrainPredictor countEvent
  split <;> simp

theorem maybeSaveCheckpoint_snd_count_trainRun (s : PredictorState) :
    countEvent Event.trainRun (maybeSaveCheckpoint s).2 = 0 := by
  unfold maybeSaveCheckpoint countEvent
  split <;> simp

theorem path_callback_train_counter (s : PredictorState) (len : ℕ) (smp : Bool) (nd : ℕ) :
    (path_callback s len smp nd).1.stepsSinceLastTraining
      = if 2000 ≤ s.stepsSinceLastTraining + len then 0
        else s.stepsSinceLastTraining + len := by
  simp only [path_callback]
  rw [maybeSaveCheckpoint_fst_stepsSinceLastTraining,
    maybeTrainPredictor_fst_stepsSinceLastTraining,
    maybeInventComparison_fst_stepsSinceLastTraining,
    maybeAddSegment_fst_stepsSinceLastTraining]
  simp [advanceCounters]

theorem path_callback_ckpt_counter (s : PredictorState) (len : ℕ) (smp : Bool) (nd : ℕ) :
    (path_callback s len smp nd).1.stepsSinceLastCheckpoint
      = if 20000 ≤ s.stepsSinceLastCheckpoint + len then 0
        else s.stepsSinceLastCheckpoint + len := by
  simp only [path_callback]
  rw [maybeSaveCheckpoint_fst_stepsSinceLastCheckpoint,
    maybeTrainPredictor_fst_stepsSinceLastCheckpoint,
    maybeInventComparison_fst_stepsSinceLastCheckpoint,
    maybeAddSegment_fst_stepsSinceLastCheckpoint]
  simp [advanceCounters]

theorem path_callback_count_trainRun (s : PredictorState) (len : ℕ) (smp : Bool) (nd : ℕ) :
    countEvent Event.trainRun (path_callback s len smp nd).2
      = if 2000 ≤ s.stepsSinceLastTraining + len then 1 else 0 := by
  simp only [path_callback]
  rw [countEvent_append, countEvent_append, countEvent_append,
    maybeAddSegment_snd_count_trainRun, maybeInventComparison_snd_count_trainRun,
    maybeSaveCheckpoint_snd_count_trainRun, maybeTrainPredictor_snd,
    maybeInventComparison_fst_stepsSinceLastTraining,
    maybeAddSegment_fst_stepsSinceLastTraining]
  simp only [advanceCounters]
  split <;> simp [countEvent]

theorem path_callback_count_saveCheckpoint (s : PredictorState) (len : ℕ) (smp : Bool) (nd : ℕ) :
    countEvent Event.saveCheckpoint (path_callback s len smp nd).2
      = if 20000 ≤ s.stepsSinceLastCheckpoint + len then 1 else 0 := by
  simp only [path_callback]
  rw [countEvent_append, countEvent_append, countEvent_append,
    maybeAddSegment_snd_count_saveCheckpoint,
    maybeInventComparison_snd_count_saveCheckpoint,
    maybeTrainPredictor_snd_count_saveCheckpoint, maybeSaveCheckpoint_snd,
    maybeTrainPredictor_fst_stepsSinceLastCheckpoint,
    maybeInventComparison_fst_stepsSinceLastCheckpoint,
    maybeAddSegment_fst_stepsSinceLastCheckpoint]
  simp only [advanceCounters]
  split <;> simp [countEvent]

theorem path_callback_numCheckpoints (s : PredictorState) (len : ℕ) (smp : Bool) (nd : ℕ) :
    (path_callback s len smp nd).1.numCheckpoints
      = if 20000 ≤ s.stepsSinceLastCheckpoint + len then s.numCheckpoints + 1
        else s.numCheckpoints := by
  simp only [path_callback]
  rw [maybeSaveCheckpoint_fst_numCheckpoints,
    maybeTrainPredictor_fst_stepsSinceLastCheckpoint,
    maybeInventComparison_fst_stepsSinceLastCheckpoint,
    maybeAddSegment_fst_stepsSinceLastCheckpoint,
    maybeTrainPredictor_fst_numCheckpoints,
    maybeInventComparison_fst_numCheckpoints,
    maybeAddSegment_fst_numCheckpoints]
  simp [advanceCounters]

theorem path_callback_counters_lt (s : PredictorState) (len : ℕ) (smp : Bool) (nd : ℕ) :
    (path_callback s len smp nd).1.stepsSinceLastTraining < 2000
    ∧ (path_callback s len smp nd).1.stepsSinceLastCheckpoint < 20000 := by
  rw [path_callback_train_counter, path_callback_ckpt_counter]
  constructor <;> split <;> omega

theorem runCallbacks_counters_lt (cs : List CallbackInput) (s : PredictorState)
    (h1 : s.stepsSinceLastTraining < 2000) (h2 : s.stepsSinceLastCheckpoint < 20000) :
    (runCallbacks s cs).stepsSinceLastTraining < 2000
    ∧ (runCallbacks s cs).stepsSinceLastCheckpoint < 20000 := by
  induction cs generalizing s with
  | nil => exact ⟨h1, h2⟩
  | cons c cs ih =>
      have h := path_callback_counters_lt s c.pathLength c.sampledSegment c.nDesiredLabels
      exact ih _ h.1 h.2

/-
  Helper lemmas for the loss, the shapes and the checkpoint index.
-/

theorem sparseSoftmaxCE_flip (l r : ℝ) (lab : ℕ) :
    sparseSoftmaxCE r l (1 - lab) = sparseSoftmaxCE l r lab := by
  unfold sparseSoftmaxCE
  rw [add_comm (Real.exp r) (Real.exp l)]
  rcases lab with _ | n
  · simp
  · have h : 1 - (n + 1) = 0 := by omega
    rw [h]
    simp

theorem ceZip_flip (ls : List ℝ) : ∀ (rs : List ℝ) (labs : List ℕ),
    ceZip rs ls (labs.map (fun lab => 1 - lab)) = ceZip ls rs labs := by
  induction ls with
  | nil => intro rs labs; cases rs <;> cases labs <;> simp [ceZip]
  | cons l ls ih =>
      intro rs labs
      cases rs with
      | nil => cases labs <;> simp [ceZip]
      | cons r rs =>
          cases labs with
          | nil => simp [ceZip]
          | cons lab labs => simp [ceZip, sparseSoftmaxCE_flip, ih]

theorem ceZip_length (ls : List ℝ) : ∀ (rs : List ℝ) (labs : List ℕ),
    (ceZip ls rs labs).length = min ls.length (min rs.length labs.length) := by
  induction ls with
  | nil => intro rs labs; cases rs <;> cases labs <;> simp [ceZip]
  | cons l ls ih =>
      intro rs labs
      cases rs with
      | nil => cases labs <;> simp [ceZip]
      | cons r rs =>
          cases labs with
          | nil => simp [ceZip]
          | cons lab labs => simp [ceZip, ih]; omega

theorem predict_rewards_length {O A : Type} (obs : List (List O)) (acts : List (List A))
    (network : O → A → ℝ) :
    (predict_rewards obs acts network).length = obs.length := by
  simp [predict_rewards, reshape2]

theorem predict_rewards_rows {O A : Type} (obs : List (List O)) (acts : List (List A))
    (network : O → A → ℝ) (L : ℕ) (h : ∀ seg ∈ obs, seg.length = L) :
    ∀ row ∈ predict_rewards obs acts network, row.length = L := by
  intro row hrow
  rcases obs with _ | ⟨seg, rest⟩
  · simp [predict_rewards, reshape2] at hrow
  · have hL : (List.headD (seg :: rest) []).length = L := h seg (by simp)
    simp only [predict_rewards, reshape2, List.mem_map, List.mem_range] at hrow
    obtain ⟨i, hi, hrw⟩ := hrow
    rw [← hrw]
    simp only [List.length_map, List.length_range]
    simpa using hL

theorem segmentRewardPred_length {O A : Type} (obs : List (List O)) (acts : List (List A))
    (network : O → A → ℝ) :
    (segmentRewardPred obs acts network).length = obs.length := by
  simp [segmentRewardPred, predict_rewards, reshape2]

theorem digits_len_le_of_lt (k : ℕ) (h : k < 10 ^ 8) : (Nat.digits 10 k).length ≤ 8 := by
  by_cases hk : k = 0
  · subst hk; simp
  · by_contra hlen
    have h1 : (10 : ℕ) ^ (Nat.digits 10 k).length ≤ 10 * k :=
      Nat.base_pow_length_digits_le 10 k (by norm_num) hk
    have h2 : (10 : ℕ) ^ 9 ≤ 10 ^ (Nat.digits 10 k).length :=
      Nat.pow_le_pow_right (by norm_num) (by omega)
    have h3 : (10 : ℕ) ^ 9 = 10 * 10 ^ 8 := by ring
    omega

theorem pad8_length (k : ℕ) (h : k < 10 ^ 8) : (pad8 k).length = 8 := by
  have hd := digits_len_le_of_lt k h
  unfold pad8
  simp only [List.length_append, List.length_replicate, List.length_reverse]
  omega

theorem ofDigits_replicate_zero (n : ℕ) : Nat.ofDigits 10 (List.replicate n 0) = 0 := by
  induction n with
  | zero => simp
  | succ n ih => simp [List.replicate_succ, Nat.ofDigits_cons, ih]

theorem pad8_decode (k : ℕ) : Nat.ofDigits 10 (pad8 k).reverse = k := by
  unfold pad8
  rw [List.reverse_append, List.reverse_reverse, List.reverse_replicate,
    Nat.ofDigits_append, Nat.ofDigits_digits, ofDigits_replicate_zero]
  simp

theorem checkpointIndexStr_length (k : ℕ) (h : k < 10 ^ 8) :
    (checkpointIndexStr k).length = 8 := by
  have h1 : (checkpointIndexStr k).length = ((pad8 k).map Nat.digitChar).length := rfl
  rw [h1, List.length_map, pad8_length k h]

/-
  Claim theorems.
-/

/-- C3: every path_callback call advances both step counters by the path
length (for any sampling outcome, in particular when the path was too short
to yield a segment), resetting a counter to 0 exactly when it reaches its
threshold; when exactly 2000 cumulative steps have accumulated since the last
training run the trace holds exactly one training event and the training
counter ends at 0, and when exactly 20000 cumulative steps have accumulated
since the last checkpoint the trace holds exactly one checkpoint event and
that counter ends at 0 (the threshold conditions 2000 ≤ · and 20000 ≤ · hold
in particular at equality). -/
theorem path_callback_cadence (s : PredictorState) (len : ℕ) (smp : Bool) (nd : ℕ) :
    (path_callback s len smp nd).1.stepsSinceLastTraining
      = (if 2000 ≤ s.stepsSinceLastTraining + len then 0
         else s.stepsSinceLastTraining + len)
    ∧ (path_callback s len smp nd).1.stepsSinceLastCheckpoint
      = (if 20000 ≤ s.stepsSinceLastCheckpoint + len then 0
         else s.stepsSinceLastCheckpoint + len)
    ∧ countEvent Event.trainRun (path_callback s len smp nd).2
      = (if 2000 ≤ s.stepsSinceLastTraining + len then 1 else 0)
    ∧ countEvent Event.saveCheckpoint (path_callback s len smp nd).2
      = (if 20000 ≤ s.stepsSinceLastCheckpoint + len then 1 else 0) :=
  ⟨path_callback_train_counter s len smp nd,
   path_callback_ckpt_counter s len smp nd,
   path_callback_count_trainRun s len smp nd,
   path_callback_count_saveCheckpoint s len smp nd⟩

/-- C10: from construction onward, after every sequence of path_callback
calls both cadence counters are strictly below their thresholds, because each
is reset to 0 in the same call in which it reaches or exceeds its threshold. -/
theorem runCallbacks_counter_invariant (calls : List CallbackInput) :
    initPredictorState.stepsSinceLastTraining < 2000
    ∧ initPredictorState.stepsSinceLastCheckpoint < 20000
    ∧ (runCallbacks initPredictorState calls).stepsSinceLastTraining < 2000
    ∧ (runCallbacks initPredictorState calls).stepsSinceLastCheckpoint < 20000 := by
  have h := runCallbacks_counters_lt calls initPredictorState (by decide) (by decide)
  exact ⟨by decide, by decide, h.1, h.2⟩

/-- C6: a segment is submitted to the collector in a path_callback call if
and only if sampling produced a segment and the collector's segment store
holds fewer than 1000 segments (so submission is suppressed at 1000 even
when sampling succeeds), and when both a submission and a comparison
invention happen in one call the submission comes first in program order. -/
theorem path_callback_submission (s : PredictorState) (len : ℕ) (smp : Bool) (nd : ℕ) :
    (Event.addSegment ∈ (path_callback s len smp nd).2
      ↔ smp = true ∧ s.collectorSegments < 1000)
    ∧ (Event.addSegment ∈ (path_callback s len smp nd).2 →
        Event.inventComparison ∈ (path_callback s len smp nd).2 →
        (path_callback s len smp nd).2.take 2
          = [Event.addSegment, Event.inventComparison]) := by
  unfold path_callback maybeAddSegment maybeInventComparison maybeTrainPredictor
    maybeSaveCheckpoint advanceCounters
  dsimp only
  split_ifs <;> simp_all

/-- C6 witness: with an empty collector, a sampled segment and one desired
label, the call both submits the segment and invents a comparison, in that
order. -/
theorem path_callback_submission_witness :
    (Event.addSegment ∈ (path_callback initPredictorState 5 true 3).2
      ↔ true = true ∧ initPredictorState.collectorSegments < 1000)
    ∧ (Event.addSegment ∈ (path_callback initPredictorState 5 true 3).2 →
        Event.inventComparison ∈ (path_callback initPredictorState 5 true 3).2 →
        (path_callback initPredictorState 5 true 3).2.take 2
          = [Event.addSegment, Event.inventComparison]) :=
  path_callback_submission initPredictorState 5 true 3

/-- C2 (code evaluated at the failing input): with an empty labeled-decisive
pool, train_predictor computes minibatch size min(128, 0) = 0 and empty feed
batches, yet still issues its one unconditional optimizer step — the source
has no empty-pool special case, so an optimization step runs rather than the
call being a guarded no-op. -/
theorem train_predictor_empty_pool_runs_optimizer :
    (train_predictor [] []).minibatchSize = 0
    ∧ (train_predictor [] []).leftBatch = []
    ∧ (train_predictor [] []).rightBatch = []
    ∧ (train_predictor [] []).labelBatch = []
    ∧ (train_predictor [] []).optimizerStepsRun = 1 :=
  ⟨rfl, rfl, rfl, rfl, rfl⟩

/-- C9: the baseline predictor returns the path's original_rewards sequence
unchanged (and so depends on nothing else in the path), and its path_callback
computes nothing. -/
theorem traditional_predictor_spec {O A R : Type} (p q : RLPath O A R)
    (h : p.original_rewards = q.original_rewards) :
    traditionalPredictReward p = p.original_rewards
    ∧ traditionalPathCallback p = ()
    ∧ traditionalPredictReward p = traditionalPredictReward q := by
  refine ⟨rfl, rfl, ?_⟩
  unfold traditionalPredictReward
  exact h

/-- C9 witness: two concrete paths that agree only on original_rewards. -/
theorem traditional_predictor_spec_witness :
    ((⟨[1], [2], [3]⟩ : RLPath ℕ ℕ ℕ).original_rewards
        = (⟨[9], [8], [3]⟩ : RLPath ℕ ℕ ℕ).original_rewards)
    ∧ (traditionalPredictReward (⟨[1], [2], [3]⟩ : RLPath ℕ ℕ ℕ)
        = (⟨[1], [2], [3]⟩ : RLPath ℕ ℕ ℕ).original_rewards
      ∧ traditionalPathCallback (⟨[1], [2], [3]⟩ : RLPath ℕ ℕ ℕ) = ()
      ∧ traditionalPredictReward (⟨[1], [2], [3]⟩ : RLPath ℕ ℕ ℕ)
        = traditionalPredictReward (⟨[9], [8], [3]⟩ : RLPath ℕ ℕ ℕ)) :=
  ⟨rfl, traditional_predictor_spec _ _ rfl⟩

/-- C7 counterexample: on a training iteration whose summary step is 10 (a
10th iteration) but with only one recent path, no correlation is computed or
logged, contrary to the claim that every 10th iteration computes it; and on a
non-10th iteration (summary step 3) the recent paths are still fetched,
contrary to the claim that fetching happens on every 10th iteration only. -/
theorem writeTrainingSummaries_counterexample :
    (writeTrainingSummaries ([0] : List ℕ) 10 (fun _ => []) (fun _ => [])).correlationInput
      = none
    ∧ LogKey.predictorCorrelations
        ∉ (writeTrainingSummaries ([0] : List ℕ) 10 (fun _ => []) (fun _ => [])).loggedKeys
    ∧ (writeTrainingSummaries ([0, 1] : List ℕ) 3 (fun _ => []) (fun _ => [])).fetchedRecentPaths
      = true := by
  refine ⟨?_, ?_, rfl⟩ <;> simp [writeTrainingSummaries]

/-- C7 as amended: on every training iteration the loss and running counters
are logged and the recent padded paths are fetched; exactly when the logger's
summary step is divisible by 10 and more than one recent path is available,
the validation branch additionally sums per-timestep predictions and true
rewards into episode-level values, hands the pair to the correlation
computation, and logs the correlation key; the function only logs and feeds
nothing back into training. -/
theorem writeTrainingSummaries_amended {P : Type} (recentPaths : List P)
    (summaryStep : ℕ) (qOf trueOf : P → List ℝ) :
    (writeTrainingSummaries recentPaths summaryStep qOf trueOf).fetchedRecentPaths = true
    ∧ LogKey.predictorLoss
        ∈ (writeTrainingSummaries recentPaths summaryStep qOf trueOf).loggedKeys
    ∧ LogKey.numTrainingIters
        ∈ (writeTrainingSummaries recentPaths summaryStep qOf trueOf).loggedKeys
    ∧ LogKey.desiredLabels
        ∈ (writeTrainingSummaries recentPaths summaryStep qOf trueOf).loggedKeys
    ∧ LogKey.totalComparisons
        ∈ (writeTrainingSummaries recentPaths summaryStep qOf trueOf).loggedKeys
    ∧ LogKey.labeledComparisons
        ∈ (writeTrainingSummaries recentPaths summaryStep qOf trueOf).loggedKeys
    ∧ (LogKey.predictorCorrelations
        ∈ (writeTrainingSummaries recentPaths summaryStep qOf trueOf).loggedKeys
      ↔ 1 < recentPaths.length ∧ summaryStep % 10 = 0)
    ∧ (1 < recentPaths.length ∧ summaryStep % 10 = 0 →
        (writeTrainingSummaries recentPaths summaryStep qOf trueOf).correlationInput
          = some (recentPaths.map (fun p => (trueOf p).sum),
                  recentPaths.map (fun p => (qOf p).sum)))
    ∧ (¬(1 < recentPaths.length ∧ summaryStep % 10 = 0) →
        (writeTrainingSummaries recentPaths summaryStep qOf trueOf).correlationInput
          = none) := by
  unfold writeTrainingSummaries
  by_cases h : 1 < recentPaths.length ∧ summaryStep % 10 = 0 <;> simp_all

/-- C7 amended witness: a 20th summary step with two recent paths runs the
validation branch on the episode-level sums. -/
theorem writeTrainingSummaries_amended_witness :
    (writeTrainingSummaries ([0, 1] : List ℕ) 20 (fun _ => [(1 : ℝ)])
        (fun _ => [(2 : ℝ)])).fetchedRecentPaths = true
    ∧ LogKey.predictorLoss
        ∈ (writeTrainingSummaries ([0, 1] : List ℕ) 20 (fun _ => [(1 : ℝ)])
            (fun _ => [(2 : ℝ)])).loggedKeys
    ∧ LogKey.numTrainingIters
        ∈ (writeTrainingSummaries ([0, 1] : List ℕ) 20 (fun _ => [(1 : ℝ)])
            (fun _ => [(2 : ℝ)])).loggedKeys
    ∧ LogKey.desiredLabels
        ∈ (writeTrainingSummaries ([0, 1] : List ℕ) 20 (fun _ => [(1 : ℝ)])
            (fun _ => [(2 : ℝ)])).loggedKeys
    ∧ LogKey.totalComparisons
        ∈ (writeTrainingSummaries ([0, 1] : List ℕ) 20 (fun _ => [(1 : ℝ)])
            (fun _ => [(2 : ℝ)])).loggedKeys
    ∧ LogKey.labeledComparisons
        ∈ (writeTrainingSummaries ([0, 1] : List ℕ) 20 (fun _ => [(1 : ℝ)])
            (fun _ => [(2 : ℝ)])).loggedKeys
    ∧ (LogKey.predictorCorrelations
        ∈ (writeTrainingSummaries ([0, 1] : List ℕ) 20 (fun _ => [(1 : ℝ)])
            (fun _ => [(2 : ℝ)])).loggedKeys
      ↔ 1 < ([0, 1] : List ℕ).length ∧ 20 % 10 = 0)
    ∧ (1 < ([0, 1] : List ℕ).length ∧ 20 % 10 = 0 →
        (writeTrainingSummaries ([0, 1] : List ℕ) 20 (fun _ => [(1 : ℝ)])
            (fun _ => [(2 : ℝ)])).correlationInput
          = some (([0, 1] : List ℕ).map (fun p => ([(2 : ℝ)] : List ℝ).sum),
                  ([0, 1] : List ℕ).map (fun p => ([(1 : ℝ)] : List ℝ).sum)))
    ∧ (¬(1 < ([0, 1] : List ℕ).length ∧ 20 % 10 = 0) →
        (writeTrainingSummaries ([0, 1] : List ℕ) 20 (fun _ => [(1 : ℝ)])
            (fun _ => [(2 : ℝ)])).correlationInput
          = none) :=
  writeTrainingSummaries_amended ([0, 1] : List ℕ) 20 (fun _ => [(1 : ℝ)])
    (fun _ => [(2 : ℝ)])

/-- C1 (code evaluated at the failing input): in the discrete branch both
streams' raw action indices are expanded to one-hot vectors of width equal to
the action cardinality, whose length is that cardinality and whose argmax
recovers the original index; but in the continuous branch the build yields no
action pair at all (the alternate stream's passthrough was assigned to the
misspelled local segement_alt_act, so the use of segment_alt_act raises
NameError), contrary to the claim that continuous actions of both streams
pass through to the scorer unchanged. -/
theorem buildModelActs_streams :
    buildModelActs true 3 [[0, 2]] [[1]] [] []
      = some ([[oneHot 3 0, oneHot 3 2]], [[oneHot 3 1]])
    ∧ (oneHot 3 0).length = 3 ∧ (oneHot 3 1).length = 3 ∧ (oneHot 3 2).length = 3
    ∧ argmaxIdx (oneHot 3 0) = 0
    ∧ argmaxIdx (oneHot 3 1) = 1
    ∧ argmaxIdx (oneHot 3 2) = 2
    ∧ buildModelActs false 3 [] [] [[[(1 : ℚ), 2]]] [[[(3 : ℚ), 4]]] = none := by
  refine ⟨rfl, rfl, rfl, rfl, ?_, ?_, ?_, rfl⟩ <;> decide

/-- C5: the training loss is invariant under simultaneously swapping the left
and right streams' observation and action batches and flipping each label
between 0 and 1. -/
theorem modelLoss_swap_flip {O A : Type} (obsL : List (List O)) (actsL : List (List A))
    (obsR : List (List O)) (actsR : List (List A)) (labels : List ℕ)
    (network : O → A → ℝ) (h : ∀ lab ∈ labels, lab ≤ 1) :
    modelLoss obsL actsL obsR actsR labels network
      = modelLoss obsR actsR obsL actsL (labels.map (fun lab => 1 - lab)) network := by
  unfold modelLoss reduceMean
  rw [ceZip_flip]

/-- C5 witness: a concrete two-example batch with one label of each value. -/
theorem modelLoss_swap_flip_witness :
    (∀ lab ∈ ([0, 1] : List ℕ), lab ≤ 1)
    ∧ modelLoss [[1]] [[1]] [[2]] [[2]] [0, 1] (fun (a b : ℕ) => (0 : ℝ))
      = modelLoss [[2]] [[2]] [[1]] [[1]] (([0, 1] : List ℕ).map (fun lab => 1 - lab))
          (fun (a b : ℕ) => (0 : ℝ)) :=
  ⟨by decide, modelLoss_swap_flip [[1]] [[1]] [[2]] [[2]] [0, 1] _ (by decide)⟩

/-- C4: for batches of segments of shape (B, L) fed to the two streams, the
per-timestep score output of the predict-rewards stage has shape exactly
(B, L) for each stream; summing over time yields exactly one scalar per
segment per stream; the stacked per-example cross-entropies number exactly B;
and the loss is their mean, i.e. their sum divided by the minibatch size. -/
theorem model_shapes {O A : Type} (obsL : List (List O)) (actsL : List (List A))
    (obsR : List (List O)) (actsR : List (List A)) (labels : List ℕ)
    (network : O → A → ℝ) (B L : ℕ)
    (hBL : obsL.length = B) (hLL : ∀ seg ∈ obsL, seg.length = L)
    (hBR : obsR.length = B) (hLR : ∀ seg ∈ obsR, seg.length = L)
    (hAL : actsL.length = B) (hALs : ∀ seg ∈ actsL, seg.length = L)
    (hAR : actsR.length = B) (hARs : ∀ seg ∈ actsR, seg.length = L)
    (hlab : labels.length = B) :
    (predict_rewards obsL actsL network).length = B
    ∧ (∀ row ∈ predict_rewards obsL actsL network, row.length = L)
    ∧ (predict_rewards obsR actsR network).length = B
    ∧ (∀ row ∈ predict_rewards obsR actsR network, row.length = L)
    ∧ (segmentRewardPred obsL actsL network).length = B
    ∧ (segmentRewardPred obsR actsR network).length = B
    ∧ (ceZip (segmentRewardPred obsL actsL network)
        (segmentRewardPred obsR actsR network) labels).length = B
    ∧ modelLoss obsL actsL obsR actsR labels network
      = (ceZip (segmentRewardPred obsL actsL network)
          (segmentRewardPred obsR actsR network) labels).sum / (B : ℝ) := by
  have hcl : (ceZip (segmentRewardPred obsL actsL network)
      (segmentRewardPred obsR actsR network) labels).length = B := by
    rw [ceZip_length, segmentRewardPred_length, segmentRewardPred_length,
      hBL, hBR, hlab]
    omega
  refine ⟨by rw [predict_rewards_length, hBL],
    predict_rewards_rows obsL actsL network L hLL,
    by rw [predict_rewards_length, hBR],
    predict_rewards_rows obsR actsR network L hLR,
    by rw [segmentRewardPred_length, hBL],
    by rw [segmentRewardPred_length, hBR],
    hcl, ?_⟩
  unfold modelLoss reduceMean
  rw [hcl]

/-- C4 witness: a concrete batch of two one-step segments per stream. -/
theorem model_shapes_witness :
    (([[1], [2]] : List (List ℕ)).length = 2
      ∧ (∀ seg ∈ ([[1], [2]] : List (List ℕ)), seg.length = 1)
      ∧ ([0, 1] : List ℕ).length = 2)
    ∧ ((predict_rewards ([[1], [2]] : List (List ℕ)) ([[1], [2]] : List (List ℕ))
          (fun (a b : ℕ) => (0 : ℝ))).length = 2
      ∧ (∀ row ∈ predict_rewards ([[1], [2]] : List (List ℕ))
          ([[1], [2]] : List (List ℕ)) (fun (a b : ℕ) => (0 : ℝ)), row.length = 1)
      ∧ (predict_rewards ([[3], [4]] : List (List ℕ)) ([[3], [4]] : List (List ℕ))
          (fun (a b : ℕ) => (0 : ℝ))).length = 2
      ∧ (∀ row ∈ predict_rewards ([[3], [4]] : List (List ℕ))
          ([[3], [4]] : List (List ℕ)) (fun (a b : ℕ) => (0 : ℝ)), row.length = 1)
      ∧ (segmentRewardPred ([[1], [2]] : List (List ℕ)) ([[1], [2]] : List (List ℕ))
          (fun (a b : ℕ) => (0 : ℝ))).length = 2
      ∧ (segmentRewardPred ([[3], [4]] : List (List ℕ)) ([[3], [4]] : List (List ℕ))
          (fun (a b : ℕ) => (0 : ℝ))).length = 2
      ∧ (ceZip (segmentRewardPred ([[1], [2]] : List (List ℕ))
            ([[1], [2]] : List (List ℕ)) (fun (a b : ℕ) => (0 : ℝ)))
          (segmentRewardPred ([[3], [4]] : List (List ℕ))
            ([[3], [4]] : List (List ℕ)) (fun (a b : ℕ) => (0 : ℝ)))
          ([0, 1] : List ℕ)).length = 2
      ∧ modelLoss ([[1], [2]] : List (List ℕ)) ([[1], [2]] : List (List ℕ))
          ([[3], [4]] : List (List ℕ)) ([[3], [4]] : List (List ℕ))
          ([0, 1] : List ℕ) (fun (a b : ℕ) => (0 : ℝ))
        = (ceZip (segmentRewardPred ([[1], [2]] : List (List ℕ))
              ([[1], [2]] : List (List ℕ)) (fun (a b : ℕ) => (0 : ℝ)))
            (segmentRewardPred ([[3], [4]] : List (List ℕ))
              ([[3], [4]] : List (List ℕ)) (fun (a b : ℕ) => (0 : ℝ)))
            ([0, 1] : List ℕ)).sum / ((2 : ℕ) : ℝ)) :=
  ⟨⟨by decide, by decide, by decide⟩,
    model_shapes [[1], [2]] [[1], [2]] [[3], [4]] [[3], [4]] [0, 1]
      (fun (a b : ℕ) => (0 : ℝ)) 2 1 (by decide) (by decide) (by decide) (by decide)
      (by decide) (by decide) (by decide) (by decide) (by decide)⟩

/-- C8: the checkpoint path is the experiment's directory
checkpoints/reward_model/<name> followed by the checkpoint index rendered as
an 8-digit zero-padded decimal string (8 characters for every index below
10^8, decoding back to the index); a triggered checkpoint save increments the
index by exactly one; and loading looks in the dirname of the checkpoint
filename — the experiment's directory, whatever the current index — and
restores the checkpoint with the largest saved index there. -/
theorem checkpoint_path_spec (name : String) (k m : ℕ) (saved : List ℕ)
    (s : PredictorState) (len : ℕ) (smp : Bool) (nd : ℕ)
    (hk : k < 10 ^ 8) (hm : saved.max? = some m)
    (htrig : 20000 ≤ s.stepsSinceLastCheckpoint + len) :
    (checkpointIndexStr k).length = 8
    ∧ Nat.ofDigits 10 (pad8 k).reverse = k
    ∧ checkpoint_filename name k
      = String.intercalate "/" ["checkpoints", "reward_model", name, checkpointIndexStr k]
    ∧ dirnameComponents (checkpointComponents name k)
      = ["checkpoints", "reward_model", name]
    ∧ (path_callback s len smp nd).1.numCheckpoints = s.numCheckpoints + 1
    ∧ load_model_from_checkpoint name k saved
      = some ["checkpoints", "reward_model", name, checkpointIndexStr m] := by
  refine ⟨checkpointIndexStr_length k hk, pad8_decode k, rfl, rfl, ?_, ?_⟩
  · rw [path_callback_numCheckpoints]
    simp [htrig]
  · unfold load_model_from_checkpoint latest_checkpoint dirnameComponents
      checkpointComponents
    rw [hm]
    rfl

/-- C8 witness: experiment name exp, current index 5, saved indices 1, 3, 2,
and a state ten steps short of the checkpoint threshold fed a ten-step path. -/
theorem checkpoint_path_spec_witness :
    ((5 : ℕ) < 10 ^ 8 ∧ ([1, 3, 2] : List ℕ).max? = some 3
      ∧ 20000 ≤ ({ initPredictorState with stepsSinceLastCheckpoint := 19990 }
          : PredictorState).stepsSinceLastCheckpoint + 10)
    ∧ ((checkpointIndexStr 5).length = 8
      ∧ Nat.ofDigits 10 (pad8 5).reverse = 5
      ∧ checkpoint_filename "exp" 5
        = String.intercalate "/" ["checkpoints", "reward_model", "exp", checkpointIndexStr 5]
      ∧ dirnameComponents (checkpointComponents "exp" 5)
        = ["checkpoints", "reward_model", "exp"]
      ∧ (path_callback ({ initPredictorState with stepsSinceLastCheckpoint := 19990 }
            : PredictorState) 10 false 0).1.numCheckpoints
        = ({ initPredictorState with stepsSinceLastCheckpoint := 19990 }
            : PredictorState).numCheckpoints + 1
      ∧ load_model_from_checkpoint "exp" 5 [1, 3, 2]
        = some ["checkpoints", "reward_model", "exp", checkpointIndexStr 3]) :=
  ⟨⟨by decide, by decide, by decide⟩,
    checkpoint_path_spec "exp" 5 3 [1, 3, 2]
      ({ initPredictorState with stepsSinceLastCheckpoint := 19990 }) 10 false 0
      (by decide) (by decide) (by decide)⟩

end RLTeacher
